import Mathlib

/-!
Verification of the telegram-bot-muxer core (src/client.go, src/config.go)
against its natural-language specification.

The Go code is shallowly embedded: pure data is translated to Lean structures,
gjson field accesses become precomputed Option-valued projections (a missing
path decodes to the zero value, as gjson does), instants and durations are
nanosecond counts (Nat), and the fallible Store/Tx layer — whose implementation
(db.go) is not part of the analysed sources — is modelled from the spec as
operations that may fail according to an explicit failure oracle.
-/

namespace BotMuxer

/-- Nanoseconds in one second, matching Go time.Second. -/
def second : Nat := 1000000000

/-- Shallow view of a gjson message value: its raw JSON text and the results
of the chat.id and chat.type path lookups (none when the path is missing). -/
structure MsgVal where
  raw : String
  chatId : Option Int
  chatType : Option String
deriving DecidableEq, Repr

/-- gjson Int() semantics: a missing path decodes as 0. -/
def MsgVal.chatIdInt (m : MsgVal) : Int := m.chatId.getD 0

/-- gjson String() semantics: a missing path decodes as the empty string. -/
def MsgVal.chatTypeStr (m : MsgVal) : String := m.chatType.getD ""

/-- Cooldown state of Client: globalCooldown and the chatCooldown map
(as an association list), instants in nanoseconds. -/
structure RateState where
  globalCooldown : Nat
  chatCooldown : List (Int × Nat)
deriving DecidableEq, Repr

/-- Lookup in the chatCooldown association list (Go map read). -/
def lookupCooldown : List (Int × Nat) → Int → Option Nat
  | [], _ => none
  | (k1, v) :: rest, k => if k1 = k then some v else lookupCooldown rest k

/-- Write to the chatCooldown association list (Go map write). -/
def setCooldown : List (Int × Nat) → Int → Nat → List (Int × Nat)
  | [], k, v => [(k, v)]
  | (k1, v1) :: rest, k, v =>
    if k1 = k then (k, v) :: rest else (k1, v1) :: setCooldown rest k v

/-- Embedding of Client.updateRateLimit (src/client.go lines 362-381):
globalCooldown becomes now plus time.Second/30 + 1 nanoseconds; when chat.id
decodes to a nonzero value the per-chat cooldown is set to now + 1 s for
private chats and now + 3 s otherwise. -/
def updateRateLimit (m : MsgVal) (now : Nat) (st : RateState) : RateState :=
  let st1 : RateState := { st with globalCooldown := now + (second / 30 + 1) }
  let chatID := m.chatIdInt
  if chatID = 0 then st1
  else if m.chatTypeStr = "private" then
    { st1 with chatCooldown := setCooldown st1.chatCooldown chatID (now + second) }
  else
    { st1 with chatCooldown := setCooldown st1.chatCooldown chatID (now + 3 * second) }

/-- Outcome of the rate-limit wait at the top of Client.ForwardRequest. -/
inductive WaitOutcome where
  | canceled
  | proceed (waitedUntil : Option Nat)
deriving DecidableEq, Repr

/-- Embedding of the rate-limit wait in Client.ForwardRequest (src/client.go
lines 189-207). chatIdForm is the strconv.ParseInt reading of the chat_id form
field, none when unparseable (ParseInt then yields 0 with an ignored error);
cancelled says whether ctx becomes done during the sleep. -/
def forwardWaitPhase (st : RateState) (isFile : Bool) (chatIdForm : Option Int)
    (now : Nat) (cancelled : Bool) : WaitOutcome :=
  if isFile then .proceed none
  else
    let chatID := chatIdForm.getD 0
    if chatID = 0 then .proceed none
    else
      let cooldown :=
        match lookupCooldown st.chatCooldown chatID with
        | some cd => if st.globalCooldown < cd then cd else st.globalCooldown
        | none => st.globalCooldown
      if now < cooldown then
        if cancelled then .canceled else .proceed (some cooldown)
      else .proceed none

/-- Embedding of Client.sleepUntilRetry (src/client.go lines 259-262):
returns the duration slept and the new nextRetryInterval, in nanoseconds. -/
def sleepUntilRetry (maxRetryIntervalSec : Nat) (next : Nat) : Nat × Nat :=
  (next, min (next * 2) (maxRetryIntervalSec * second))

/-- Embedding of Client.resetRetry (src/client.go lines 264-266). -/
def resetRetry : Nat := second

/-- Value of nextRetryInterval before the k-th sleepUntilRetry call (0-based),
starting from a fresh Client or a resetRetry; the k-th call sleeps exactly
this long. -/
def retryIntervalAt (maxRetryIntervalSec : Nat) : Nat → Nat
  | 0 => second
  | k + 1 => (sleepUntilRetry maxRetryIntervalSec (retryIntervalAt maxRetryIntervalSec k)).2

/-- Upstream section of the decoded configuration (src/config.go). -/
structure ConfigUpstream where
  apiUrl : String
  fileUrl : String
  authToken : String
  pollingTimeout : Nat
  maxRetryInterval : Nat
  filterUpdateTypes : List String
deriving DecidableEq, Repr

/-- Downstream section of the decoded configuration (src/config.go). -/
structure ConfigDownstream where
  listenAddr : String
  apiPath : String
  filePath : String
  authToken : String
deriving DecidableEq, Repr

/-- Decoded configuration (src/config.go). -/
structure Config where
  db : String
  upstream : ConfigUpstream
  downstream : ConfigDownstream
deriving DecidableEq, Repr

/-- Defaults installed by Load before TOML decoding (src/config.go lines 46-59);
required fields default to the empty string. -/
def defaultConfig : Config :=
  { db := "tbmux.db"
    upstream :=
      { apiUrl := "https://api.telegram.org/bot"
        fileUrl := "https://api.telegram.org/file/bot"
        authToken := ""
        pollingTimeout := 60
        maxRetryInterval := 600
        filterUpdateTypes := [] }
    downstream :=
      { listenAddr := ""
        apiPath := "/bot"
        filePath := "/file/bot"
        authToken := "" } }

/-- Validation errors of Load (src/config.go lines 135-149). -/
inductive ConfigError where
  | fieldIsEmpty (field : String)
  | durationIsTooShort (field : String)
deriving DecidableEq, Repr

/-- Error message rendering (src/config.go lines 139-141 and 147-149). -/
def ConfigError.message : ConfigError → String
  | .fieldIsEmpty f => "invalid config file: " ++ f ++ " is empty"
  | .durationIsTooShort f => "invalid config file: " ++ f ++ " is too short"

/-- Character-list substring scan. -/
def containsChars (needle : List Char) : List Char → Bool
  | [] => needle.isPrefixOf []
  | c :: rest => needle.isPrefixOf (c :: rest) || containsChars needle rest

/-- Substring test used to state claims about error-message contents. -/
def containsStr (hay needle : String) : Bool :=
  containsChars needle.toList hay.toList

/-- Embedding of the validation section of Load (src/config.go lines 66-95):
the checks run in source order and the first failing one determines the error;
none means validation passed. -/
def validateConfig (c : Config) : Option ConfigError :=
  if c.db.length = 0 then some (.fieldIsEmpty "db")
  else if c.upstream.apiUrl.length = 0 then some (.fieldIsEmpty "upstream.api_url")
  else if c.upstream.fileUrl.length = 0 then some (.fieldIsEmpty "upstream.file_url")
  else if c.upstream.authToken.length = 0 then some (.fieldIsEmpty "upstream.auth_token")
  else if c.upstream.pollingTimeout < 10 then some (.durationIsTooShort "upstream.polling_timeout")
  else if c.upstream.maxRetryInterval < 60 then some (.durationIsTooShort "upstream.max_retry_interval")
  else if c.downstream.listenAddr.length = 0 then some (.fieldIsEmpty "downstream.listen_addr")
  else if c.downstream.apiPath.length = 0 then some (.fieldIsEmpty "downstream.api_path")
  else if c.downstream.filePath.length = 0 then some (.fieldIsEmpty "downstream.file_path")
  else if c.downstream.authToken.length = 0 then some (.fieldIsEmpty "downstream.auth_token")
  else none

/-- A configuration passes every check of Load. -/
def goodConfig (c : Config) : Prop :=
  c.db ≠ "" ∧ c.upstream.apiUrl ≠ "" ∧ c.upstream.fileUrl ≠ "" ∧
  c.upstream.authToken ≠ "" ∧ 10 ≤ c.upstream.pollingTimeout ∧
  60 ≤ c.upstream.maxRetryInterval ∧ c.downstream.listenAddr ≠ "" ∧
  c.downstream.apiPath ≠ "" ∧ c.downstream.filePath ≠ "" ∧
  c.downstream.authToken ≠ ""

/-- An update row of the durable log: either ingested from upstream (with its
upstream update_id) or synthesised locally by an echo handler. -/
inductive StoredUpdate where
  | fromUpstream (uid : Nat) (kind : String) (raw : String)
  | localEcho (kind : String) (raw : String)
deriving DecidableEq, Repr

/-- Committed state of the Store: the update log, the message-cache upsert
trail (raw payloads handed to InsertMessage, in order), and the number of
NotifyUpdates calls. -/
structure StoreState where
  updates : List StoredUpdate
  cache : List String
  notifies : Nat
deriving DecidableEq, Repr

/-- Modelled from the spec (section 4.1; db.go is not under src/): an open
transaction stages inserts and upserts that commit or fail together. A failed
BeginTx leaves the Go caller with an invalid (nil) transaction, on which every
operation fails. -/
structure Tx where
  valid : Bool
  stagedUpdates : List StoredUpdate
  stagedCache : List String
deriving DecidableEq, Repr

/-- Failure oracle deciding which storage operations fail with a
StorageFailure, per the spec (section 4.1) all Tx methods may fail. -/
structure DbOracle where
  beginTxFails : Bool
  insertMessageFails : String → Bool
  insertUpdateFails : Nat → String → String → Bool
  insertLocalUpdateFails : String → String → Bool
  commitFails : Bool

/-- Oracle under which every storage operation succeeds. -/
def DbOracle.allOk (o : DbOracle) : Prop :=
  o.beginTxFails = false ∧ (∀ r, o.insertMessageFails r = false) ∧
  (∀ u k r, o.insertUpdateFails u k r = false) ∧
  (∀ k r, o.insertLocalUpdateFails k r = false) ∧ o.commitFails = false

/-- The invalid transaction a Go caller holds after BeginTx fails. -/
def invalidTx : Tx := { valid := false, stagedUpdates := [], stagedCache := [] }

/-- Modelled from the spec (section 4.1): begin() opens an atomic unit of work;
it may fail with a StorageFailure. -/
def beginTx (o : DbOracle) : Except Unit Tx :=
  if o.beginTxFails then .error ()
  else .ok { valid := true, stagedUpdates := [], stagedCache := [] }

/-- Modelled from the spec (section 4.1): Tx.InsertMessage stages a
message-cache upsert; on failure nothing is staged. -/
def Tx.insertMessage (tx : Tx) (o : DbOracle) (raw : String) : Except Unit Tx :=
  if !tx.valid || o.insertMessageFails raw then .error ()
  else .ok { tx with stagedCache := tx.stagedCache ++ [raw] }

/-- Modelled from the spec (section 4.1): Tx.InsertUpdate stages an upstream
update row; on failure nothing is staged. -/
def Tx.insertUpdate (tx : Tx) (o : DbOracle) (uid : Nat) (kind raw : String) :
    Except Unit Tx :=
  if !tx.valid || o.insertUpdateFails uid kind raw then .error ()
  else .ok { tx with stagedUpdates := tx.stagedUpdates ++ [.fromUpstream uid kind raw] }

/-- Modelled from the spec (section 4.1): Tx.InsertLocalUpdate stages a
locally-synthesised update row; on failure nothing is staged. -/
def Tx.insertLocalUpdate (tx : Tx) (o : DbOracle) (kind raw : String) :
    Except Unit Tx :=
  if !tx.valid || o.insertLocalUpdateFails kind raw then .error ()
  else .ok { tx with stagedUpdates := tx.stagedUpdates ++ [.localEcho kind raw] }

/-- Modelled from the spec (section 4.1): Tx.Commit applies the staged
operations atomically; on failure the committed state is unchanged. -/
def Tx.commit (tx : Tx) (o : DbOracle) (st : StoreState) : Except Unit StoreState :=
  if !tx.valid || o.commitFails then .error ()
  else .ok { st with updates := st.updates ++ tx.stagedUpdates,
                     cache := st.cache ++ tx.stagedCache }

/-- Database.NotifyUpdates: wakes all fetch_updates waiters. -/
def StoreState.notify (st : StoreState) : StoreState :=
  { st with notifies := st.notifies + 1 }

/-- State of the Client visible to the echo handlers: cooldowns, the committed
store, and the log trail. -/
structure ClientState where
  rate : RateState
  store : StoreState
  logs : List String
deriving DecidableEq, Repr

/-- The result field of an echo response body, with its gjson projections:
whether it is the JSON literal true, its view as a single message, and its
elements when viewed as an array (empty otherwise). -/
structure ResultVal where
  isTrue : Bool
  msg : MsgVal
  elems : List MsgVal
deriving DecidableEq, Repr

/-- Parsed echo response body (the gjson projections the handlers read). -/
structure EchoBody where
  okFlag : Bool
  errorCode : String
  description : String
  result : ResultVal
deriving DecidableEq, Repr

/-- Log tag of the storage-failure log sites. -/
def storeFailLog : String := "Failed to store updates"

/-- Log tag of the ok-false upstream-error log sites. -/
def upstreamErrLog : String := "Upstream error"

/-- Runs one fallible transaction operation the way the Go echo handlers do:
keep the previous transaction and log on error, continue either way. -/
def txStepLogged (tx : Tx) (r : Except Unit Tx) (logs : List String) :
    Tx × List String :=
  match r with
  | .ok tx1 => (tx1, logs)
  | .error _ => (tx, logs ++ [storeFailLog])

/-- Embedding of Client.processEchoMessage (src/client.go lines 268-296): on an
ok body, feed the result to updateRateLimit, then upsert + insert a local
"message" update in one transaction, logging each storage failure and
proceeding; finally NotifyUpdates. -/
def processEchoMessage (o : DbOracle) (now : Nat) (body : EchoBody)
    (cst : ClientState) : ClientState :=
  if !body.okFlag then
    { cst with logs := cst.logs ++ [upstreamErrLog] }
  else
    let message := body.result.msg
    let rate1 := updateRateLimit message now cst.rate
    let (tx1, l1) :=
      match beginTx o with
      | .ok t => (t, ([] : List String))
      | .error _ => (invalidTx, [storeFailLog])
    let (tx2, l2) := txStepLogged tx1 (tx1.insertMessage o message.raw) l1
    let (tx3, l3) := txStepLogged tx2 (tx2.insertLocalUpdate o "message" message.raw) l2
    let (store1, l4) :=
      match tx3.commit o cst.store with
      | .ok s => (s, l3)
      | .error _ => (cst.store, l3 ++ [storeFailLog])
    { rate := rate1, store := store1.notify, logs := cst.logs ++ l4 }

/-- Embedding of Client.processEchoMessageEdit (src/client.go lines 298-328):
on an ok body whose result is the JSON literal true, do nothing; otherwise
upsert + insert a local "edited_message" update in one transaction, logging
each storage failure and proceeding; finally NotifyUpdates. The rate limiter
is never touched. -/
def processEchoMessageEdit (o : DbOracle) (body : EchoBody)
    (cst : ClientState) : ClientState :=
  if !body.okFlag then
    { cst with logs := cst.logs ++ [upstreamErrLog] }
  else
    let message := body.result
    if message.isTrue then cst
    else
      let (tx1, l1) :=
        match beginTx o with
        | .ok t => (t, ([] : List String))
        | .error _ => (invalidTx, [storeFailLog])
      let (tx2, l2) := txStepLogged tx1 (tx1.insertMessage o message.msg.raw) l1
      let (tx3, l3) := txStepLogged tx2 (tx2.insertLocalUpdate o "edited_message" message.msg.raw) l2
      let (store1, l4) :=
        match tx3.commit o cst.store with
        | .ok s => (s, l3)
        | .error _ => (cst.store, l3 ++ [storeFailLog])
      { cst with store := store1.notify, logs := cst.logs ++ l4 }

/-- One iteration of the result.ForEach loop of Client.processEchoMessageArray
(src/client.go lines 343-354): rate-limit observation, then upsert and insert,
logging failures and always continuing. -/
def echoArrayStep (o : DbOracle) (now : Nat)
    (acc : RateState × Tx × List String) (m : MsgVal) :
    RateState × Tx × List String :=
  let rate1 := updateRateLimit m now acc.1
  let (tx1, l1) := txStepLogged acc.2.1 (acc.2.1.insertMessage o m.raw) acc.2.2
  let (tx2, l2) := txStepLogged tx1 (tx1.insertLocalUpdate o "message" m.raw) l1
  (rate1, tx2, l2)

/-- Embedding of Client.processEchoMessageArray (src/client.go lines 330-360):
on an ok body, iterate the result array inside a single transaction, each
element contributing a rate-limit observation, an upsert and a local "message"
update; storage failures are logged and iteration continues; finally commit
(logging failure) and NotifyUpdates. -/
def processEchoMessageArray (o : DbOracle) (now : Nat) (body : EchoBody)
    (cst : ClientState) : ClientState :=
  if !body.okFlag then
    { cst with logs := cst.logs ++ [upstreamErrLog] }
  else
    let (tx1, l1) :=
      match beginTx o with
      | .ok t => (t, ([] : List String))
      | .error _ => (invalidTx, [storeFailLog])
    let (rate1, tx2, l2) :=
      body.result.elems.foldl (echoArrayStep o now) (cst.rate, tx1, l1)
    let (store1, l3) :=
      match tx2.commit o cst.store with
      | .ok s => (s, l2)
      | .error _ => (cst.store, l2 ++ [storeFailLog])
    { rate := rate1, store := store1.notify, logs := cst.logs ++ l3 }

/-- Update-type keys whose payloads also populate the message cache
(src/client.go lines 35-42). -/
def typesNeedCaching : List String :=
  ["message", "edited_message", "channel_post", "edited_channel_post",
   "business_message", "edited_business_message"]

/-- One element of the getUpdates result array: its update_id and the key/value
pairs of the object, in document order. -/
structure UpdateObj where
  updateId : Nat
  fields : List (String × MsgVal)
deriving DecidableEq, Repr

/-- Parsed getUpdates response body (the gjson projections the loop reads). -/
structure GetUpdatesBody where
  okFlag : Bool
  errorCode : String
  description : String
  result : List UpdateObj
deriving DecidableEq, Repr

/-- Outcome of issuing one getUpdates request: the transport fails, or an HTTP
status arrives together with the body if reading it succeeds. -/
inductive PollOutcome where
  | transportFailure
  | httpResponse (status : Nat) (bodyRead : Option GetUpdatesBody)
deriving DecidableEq, Repr

/-- How one loop iteration of Client.StartPolling ends: return with an error,
sleepUntilRetry and continue, or resetRetry and continue. -/
inductive StepAction where
  | fatal
  | retry
  | success
deriving DecidableEq, Repr

/-- Result of one Client.StartPolling loop iteration: the classification, the
new upstream offset, the committed store, the log tags emitted, whether a
transaction was opened, whether the storage phase was reached, and whether some
storage operation failed. -/
structure StepResult where
  action : StepAction
  offset : Nat
  store : StoreState
  logs : List String
  txOpened : Bool
  storeAttempted : Bool
  storageFailed : Bool
deriving DecidableEq, Repr

/-- Embedding of the inner update.ForEach closure (src/client.go lines
146-158): for each key other than update_id, stage a cache upsert when the key
is cacheable and then stage the update row; the first failing insert sets err
and aborts the iteration. Returns the transaction and whether err is set. -/
def processFields (o : DbOracle) (uid : Nat) : Tx → List (String × MsgVal) → Tx × Bool
  | tx, [] => (tx, false)
  | tx, (key, v) :: rest =>
    if key = "update_id" then processFields o uid tx rest
    else
      match (if typesNeedCaching.contains key then tx.insertMessage o v.raw else .ok tx) with
      | .error _ => (tx, true)
      | .ok tx1 =>
        match tx1.insertUpdate o uid key v.raw with
        | .error _ => (tx1, true)
        | .ok tx2 => processFields o uid tx2 rest

/-- Embedding of the outer result.ForEach loop (src/client.go lines 143-160):
the offset advances to max(offset, update_id + 1) as each update is visited,
before any commit; a set err aborts the loop. -/
def processUpdates (o : DbOracle) : Nat → Tx → List UpdateObj → Nat × Tx × Bool
  | off, tx, [] => (off, tx, false)
  | off, tx, u :: rest =>
    let off1 := max off (u.updateId + 1)
    match processFields o u.updateId tx u.fields with
    | (tx1, true) => (off1, tx1, true)
    | (tx1, false) => processUpdates o off1 tx1 rest

/-- Embedding of one iteration of the Client.StartPolling loop after the
getUpdates request has been issued (src/client.go lines 99-177): classify the
outcome, store the batch, advance the offset, and notify. -/
def pollStep (o : DbOracle) (out : PollOutcome) (offset : Nat) (st : StoreState) :
    StepResult :=
  match out with
  | .transportFailure =>
    { action := .retry, offset := offset, store := st,
      logs := ["Upstream HTTP request error"], txOpened := false,
      storeAttempted := false, storageFailed := false }
  | .httpResponse status bodyRead =>
    if 200 ≤ status ∧ status < 300 then
      match bodyRead with
      | none =>
        { action := .retry, offset := offset, store := st,
          logs := ["HTTP read error"], txOpened := false,
          storeAttempted := false, storageFailed := false }
      | some b =>
        if !b.okFlag then
          { action := .retry, offset := offset, store := st,
            logs := [upstreamErrLog], txOpened := false,
            storeAttempted := false, storageFailed := false }
        else
          match beginTx o with
          | .error _ =>
            { action := .retry, offset := offset, store := st,
              logs := [storeFailLog], txOpened := false,
              storeAttempted := true, storageFailed := true }
          | .ok tx =>
            match processUpdates o offset tx b.result with
            | (off1, tx1, true) =>
              let st1 := match tx1.commit o st with
                | .ok s => s
                | .error _ => st
              { action := .retry, offset := off1, store := st1.notify,
                logs := [storeFailLog], txOpened := true,
                storeAttempted := true, storageFailed := true }
            | (off1, tx1, false) =>
              match tx1.commit o st with
              | .error _ =>
                { action := .retry, offset := off1, store := st.notify,
                  logs := [storeFailLog], txOpened := true,
                  storeAttempted := true, storageFailed := true }
              | .ok s1 =>
                { action := .success, offset := off1, store := s1.notify,
                  logs := [], txOpened := true,
                  storeAttempted := true, storageFailed := false }
    else if 400 ≤ status ∧ status < 500 then
      { action := .fatal, offset := offset, store := st,
        logs := ["Upstream server returned error"], txOpened := false,
        storeAttempted := false, storageFailed := false }
    else
      { action := .retry, offset := offset, store := st,
        logs := ["Upstream server returned error"], txOpened := false,
        storeAttempted := false, storageFailed := false }

/-- Which echo handler the dispatch table assigns to a method name
(src/client.go lines 48-72). -/
inductive EchoKind where
  | single
  | array
  | edit
deriving DecidableEq, Repr

/-- The echoProcessor dispatch table (src/client.go lines 48-72). -/
def echoProcessorOf (method : String) : Option EchoKind :=
  if method ∈ ["sendMessage", "forwardMessage", "copyMessage", "sendPhoto",
      "sendAudio", "sendDocument", "sendVideo", "sendAnimation", "sendVoice",
      "sendVideoNote", "sendPaidMedia", "sendLocation", "sendVenue",
      "sendContact", "sendPoll", "sendDice"] then some .single
  else if method = "sendMediaGroup" then some .array
  else if method ∈ ["editMessageText", "editMessageCaption", "editMessageMedia",
      "editMessageLiveLocation", "stopMessageLiveLocation",
      "editMessageReplyMarkup"] then some .edit
  else none

/-- Dispatches a buffered echo body to the handler of the given kind. -/
def runEcho (k : EchoKind) (o : DbOracle) (now : Nat) (body : EchoBody)
    (cst : ClientState) : ClientState :=
  match k with
  | .single => processEchoMessage o now body cst
  | .array => processEchoMessageArray o now body cst
  | .edit => processEchoMessageEdit o body cst

/-- Result of the response-forwarding tail of Client.ForwardRequest. -/
structure ForwardTailResult where
  state : ClientState
  echoRan : Bool
deriving DecidableEq, Repr

/-- Embedding of the response-forwarding tail of Client.ForwardRequest
(src/client.go lines 234-257): with an echo handler for the method and a 2xx
status, the body is teed into a buffer while streaming downstream, and only
when that copy finishes without error is the buffered body handed to the echo
handler; a copy error is logged and the handler is skipped. Without a handler
or outside 2xx the body streams through directly. copyOk says whether the
io.Copy to the downstream writer succeeded; body is the buffered body as the
echo handlers parse it. -/
def forwardTail (o : DbOracle) (now : Nat) (isFile : Bool) (method : String)
    (status : Nat) (copyOk : Bool) (body : EchoBody) (cst : ClientState) :
    ForwardTailResult :=
  let handler := if isFile then none else echoProcessorOf method
  match handler with
  | none =>
    { state := if copyOk then cst else { cst with logs := cst.logs ++ ["HTTP error"] },
      echoRan := false }
  | some k =>
    if status < 200 ∨ 300 ≤ status then
      { state := if copyOk then cst else { cst with logs := cst.logs ++ ["HTTP error"] },
        echoRan := false }
    else if !copyOk then
      { state := { cst with logs := cst.logs ++ ["HTTP error"] }, echoRan := false }
    else
      { state := runEcho k o now body cst, echoRan := true }

/-- Does a getUpdates outcome carry a 4xx HTTP status. -/
def outcome4xx : PollOutcome → Prop
  | .transportFailure => False
  | .httpResponse status _ => 400 ≤ status ∧ status < 500

/-- Maps the validation error-message field names to the string field they
describe. -/
def configStrField (c : Config) : String → Option String
  | "db" => some c.db
  | "upstream.api_url" => some c.upstream.apiUrl
  | "upstream.file_url" => some c.upstream.fileUrl
  | "upstream.auth_token" => some c.upstream.authToken
  | "downstream.listen_addr" => some c.downstream.listenAddr
  | "downstream.api_path" => some c.downstream.apiPath
  | "downstream.file_path" => some c.downstream.filePath
  | "downstream.auth_token" => some c.downstream.authToken
  | _ => none

/-- Oracle fixture: every storage operation succeeds. -/
def oracleNoFail : DbOracle :=
  { beginTxFails := false, insertMessageFails := fun _ => false,
    insertUpdateFails := fun _ _ _ => false,
    insertLocalUpdateFails := fun _ _ => false, commitFails := false }

/-- Oracle fixture: only Tx.Commit fails. -/
def oracleCommitFail : DbOracle := { oracleNoFail with commitFails := true }

/-- Oracle fixture: only BeginTx fails. -/
def oracleBeginFail : DbOracle := { oracleNoFail with beginTxFails := true }

/-- Oracle fixture: every InsertUpdate fails. -/
def oracleInsertUpdateFail : DbOracle :=
  { oracleNoFail with insertUpdateFails := fun _ _ _ => true }

/-- Oracle fixture: every InsertMessage fails, everything else succeeds. -/
def oracleInsertMessageFail : DbOracle :=
  { oracleNoFail with insertMessageFails := fun _ => true }

/-- Message fixture: a private-chat message. -/
def msgFixture : MsgVal :=
  { raw := "rawmsg", chatId := some 100, chatType := some "private" }

/-- Update fixture: update_id 5 carrying one message field. -/
def updateFixture : UpdateObj :=
  { updateId := 5, fields := [("message", msgFixture)] }

/-- getUpdates body fixture with ok true and one update. -/
def ingestBodyFixture : GetUpdatesBody :=
  { okFlag := true, errorCode := "", description := "", result := [updateFixture] }

/-- Empty store fixture. -/
def storeEmpty : StoreState := { updates := [], cache := [], notifies := 0 }

/-- Empty rate-state fixture. -/
def rateEmpty : RateState := { globalCooldown := 0, chatCooldown := [] }

/-- Empty client-state fixture. -/
def clientEmpty : ClientState :=
  { rate := rateEmpty, store := storeEmpty, logs := [] }

/-- Echo body fixture: ok with one message as result. -/
def echoBodyFixture : EchoBody :=
  { okFlag := true, errorCode := "", description := "",
    result := { isTrue := false, msg := msgFixture, elems := [msgFixture] } }

/-- Configuration fixture with two simultaneous violations: db empty and
polling_timeout too short. -/
def badConfig : Config :=
  { db := ""
    upstream := { defaultConfig.upstream with authToken := "t", pollingTimeout := 5 }
    downstream := { defaultConfig.downstream with listenAddr := "a", authToken := "d" } }

/-- Configuration fixture passing every check. -/
def okConfig : Config :=
  { badConfig with
    db := "tbmux.db"
    upstream := { badConfig.upstream with pollingTimeout := 60 } }

theorem lookup_setCooldown (l : List (Int × Nat)) (k : Int) (v : Nat) :
    lookupCooldown (setCooldown l k v) k = some v := by
  induction l with
  | nil => simp [setCooldown, lookupCooldown]
  | cons hd t ih =>
    obtain ⟨k1, v1⟩ := hd
    by_cases hk : k1 = k
    · subst hk
      simp [setCooldown, lookupCooldown]
    · simp [setCooldown, lookupCooldown, hk, ih]

/-- C5 counterexample: a message whose chat.id is present and equal to 0 with
chat.type "private" leaves the per-chat map unchanged, whereas the claim says
the per-chat cooldown for chat 0 is set to now + 1 s. -/
theorem claim_C5_counterexample :
    (updateRateLimit ⟨"x", some 0, some "private"⟩ 0 ⟨0, []⟩).chatCooldown = [] ∧
    ¬ lookupCooldown
        (updateRateLimit ⟨"x", some 0, some "private"⟩ 0 ⟨0, []⟩).chatCooldown 0
        = some (0 + second) := by
  decide

/-- C5 amended: updateRateLimit sets the global cooldown to now plus
time.Second/30 + 1 nanoseconds for every observed message; when chat.id
decodes to a nonzero value the per-chat cooldown becomes now + 1 s for private
chats and now + 3 s otherwise; when chat.id is absent or decodes to zero the
per-chat map is unchanged. -/
theorem claim_C5_rate_update_amended (m : MsgVal) (now : Nat) (st : RateState) :
    (updateRateLimit m now st).globalCooldown = now + (second / 30 + 1)
    ∧ (m.chatIdInt ≠ 0 → m.chatTypeStr = "private" →
        lookupCooldown (updateRateLimit m now st).chatCooldown m.chatIdInt
          = some (now + second))
    ∧ (m.chatIdInt ≠ 0 → m.chatTypeStr ≠ "private" →
        lookupCooldown (updateRateLimit m now st).chatCooldown m.chatIdInt
          = some (now + 3 * second))
    ∧ (m.chatIdInt = 0 →
        (updateRateLimit m now st).chatCooldown = st.chatCooldown) := by
  refine ⟨?_, ?_, ?_, ?_⟩
  · unfold updateRateLimit
    by_cases h0 : m.chatIdInt = 0
    · simp [h0]
    · by_cases hp : m.chatTypeStr = "private" <;> simp [h0, hp]
  · intro h0 hp
    unfold updateRateLimit
    simp [h0, hp, lookup_setCooldown]
  · intro h0 hp
    unfold updateRateLimit
    simp [h0, hp, lookup_setCooldown]
  · intro h0
    unfold updateRateLimit
    simp [h0]

/-- C5 witness: a nonzero private chat gets a 1 s cooldown and the global
cooldown advances by 1/30 s + 1 ns. -/
theorem claim_C5_witness :
    (updateRateLimit msgFixture 7 rateEmpty).globalCooldown = 7 + (second / 30 + 1)
    ∧ lookupCooldown (updateRateLimit msgFixture 7 rateEmpty).chatCooldown
        msgFixture.chatIdInt = some (7 + second) := by
  refine ⟨(claim_C5_rate_update_amended msgFixture 7 rateEmpty).1, ?_⟩
  exact (claim_C5_rate_update_amended msgFixture 7 rateEmpty).2.1 (by decide) (by decide)

/-- C3 counterexample: a request whose chat_id form field parses to 0 skips
the rate-governor wait even though the deadline lies in the future, whereas
the claim says every parseable chat_id waits until the deadline. -/
theorem claim_C3_counterexample :
    forwardWaitPhase ⟨100, []⟩ false (some 0) 0 false = .proceed none ∧
    ¬ forwardWaitPhase ⟨100, []⟩ false (some 0) 0 false
        = .proceed (some (max 100 ((lookupCooldown [] 0).getD 0))) := by
  decide

/-- C3 amended: for an API-route request whose chat_id form field parses to a
nonzero int64, ForwardRequest waits until the deadline
max(globalCooldown, chatCooldown.get(chat_id, 0)) when that deadline is in the
future, returning a cancelled error if the context is cancelled during the
wait and proceeding without waiting otherwise; file-route requests never wait
on the rate governor. -/
theorem claim_C3_wait_amended (st : RateState) (v : Int) (now : Nat)
    (cancelled : Bool) (hv : v ≠ 0) :
    (now < max st.globalCooldown ((lookupCooldown st.chatCooldown v).getD 0) →
      cancelled = true →
        forwardWaitPhase st false (some v) now cancelled = .canceled)
    ∧ (now < max st.globalCooldown ((lookupCooldown st.chatCooldown v).getD 0) →
        cancelled = false →
          forwardWaitPhase st false (some v) now cancelled
            = .proceed (some (max st.globalCooldown
                ((lookupCooldown st.chatCooldown v).getD 0))))
    ∧ (max st.globalCooldown ((lookupCooldown st.chatCooldown v).getD 0) ≤ now →
        forwardWaitPhase st false (some v) now cancelled = .proceed none)
    ∧ (∀ f : Option Int, ∀ c : Bool,
        forwardWaitPhase st true f now c = .proceed none) := by
  have hcool : (match lookupCooldown st.chatCooldown v with
      | some cd => if st.globalCooldown < cd then cd else st.globalCooldown
      | none => st.globalCooldown)
      = max st.globalCooldown ((lookupCooldown st.chatCooldown v).getD 0) := by
    cases h : lookupCooldown st.chatCooldown v with
    | none => simp [Nat.max_eq_left (Nat.zero_le _)]
    | some cd =>
      simp only [Option.getD_some]
      rcases Nat.lt_or_ge st.globalCooldown cd with hlt | hge
      · rw [if_pos hlt, Nat.max_eq_right (Nat.le_of_lt hlt)]
      · rw [if_neg (Nat.not_lt.mpr hge), Nat.max_eq_left hge]
  refine ⟨?_, ?_, ?_, ?_⟩
  · intro hlt hc
    unfold forwardWaitPhase
    simp only [if_neg, Option.getD_some, hv, hc, hcool]
    simp [hv, hcool, hlt, hc]
  · intro hlt hc
    unfold forwardWaitPhase
    simp [hv, hcool, hlt, hc]
  · intro hle
    unfold forwardWaitPhase
    simp [hv, hcool]
    omega
  · intro f c
    unfold forwardWaitPhase
    simp

/-- C3 witness: a nonzero chat with a future per-chat cooldown waits until
that cooldown. -/
theorem claim_C3_witness :
    forwardWaitPhase ⟨100, [(7, 500)]⟩ false (some 7) 0 false
      = .proceed (some (max 100 ((lookupCooldown [(7, 500)] 7).getD 0))) := by
  exact (claim_C3_wait_amended ⟨100, [(7, 500)]⟩ 7 0 false (by decide)).2.1
    (by decide) rfl

theorem retryIntervalAt_min (maxSec : Nat) (h : 1 ≤ maxSec) (k : Nat) :
    retryIntervalAt maxSec k = min (2 ^ k * second) (maxSec * second) := by
  induction k with
  | zero =>
    have hle : second ≤ maxSec * second := by
      calc second = 1 * second := (Nat.one_mul second).symm
      _ ≤ maxSec * second := Nat.mul_le_mul_right second h
    simp [retryIntervalAt, Nat.min_eq_left hle]
  | succ k ih =>
    have hpow : 2 ^ (k + 1) * second = 2 ^ k * second * 2 := by ring
    simp only [retryIntervalAt, sleepUntilRetry, ih, hpow]
    omega

/-- C8: starting from a reset, the k-th sleepUntilRetry call sleeps exactly
min(2^k seconds, max_retry_interval seconds) — the intervals 1 s, 2 s, 4 s, …
each doubling and capped at max_retry_interval — and resetRetry restores the
next interval to 1 s. -/
theorem claim_C8_backoff_sequence (maxSec : Nat) (h : 1 ≤ maxSec) (k : Nat) :
    (sleepUntilRetry maxSec (retryIntervalAt maxSec k)).1
      = min (2 ^ k * second) (maxSec * second)
    ∧ resetRetry = second := by
  exact ⟨retryIntervalAt_min maxSec h k, rfl⟩

/-- C8 witness: with the default 600 s cap the fourth sleep lasts 8 s and a
later one saturates at 600 s. -/
theorem claim_C8_witness :
    (sleepUntilRetry 600 (retryIntervalAt 600 3)).1
      = min (2 ^ 3 * second) (600 * second)
    ∧ resetRetry = second := by
  exact claim_C8_backoff_sequence 600 (by decide) 3

theorem commit_fails {o : DbOracle} (hc : o.commitFails = true) (tx : Tx)
    (st : StoreState) : tx.commit o st = .error () := by
  unfold Tx.commit
  simp [hc]

theorem commit_ok_eq {tx : Tx} {o : DbOracle} {st s : StoreState}
    (h : tx.commit o st = .ok s) :
    s = { st with updates := st.updates ++ tx.stagedUpdates,
                  cache := st.cache ++ tx.stagedCache } := by
  unfold Tx.commit at h
  by_cases hc : (!tx.valid || o.commitFails) = true
  · rw [if_pos hc] at h
    cases h
  · rw [if_neg hc] at h
    cases h
    rfl

/-- C1: evaluated at a concrete ok batch (one update with update_id 5) under
an oracle whose commit fails, one StartPolling iteration leaves the committed
store empty yet advances the offset from 0 to 6 and retries; the next
getUpdates would use offset 6, not the pre-batch offset 0 the claim
requires. -/
theorem claim_C1_offset_advances_despite_failed_commit :
    (pollStep oracleCommitFail (.httpResponse 200 (some ingestBodyFixture)) 0
      storeEmpty).offset = 6
    ∧ (pollStep oracleCommitFail (.httpResponse 200 (some ingestBodyFixture)) 0
        storeEmpty).store.updates = []
    ∧ (pollStep oracleCommitFail (.httpResponse 200 (some ingestBodyFixture)) 0
        storeEmpty).action = .retry
    ∧ (pollStep oracleCommitFail (.httpResponse 200 (some ingestBodyFixture)) 0
        storeEmpty).storageFailed = true := by
  decide

/-- C7: whenever a StartPolling iteration opens a store transaction,
NotifyUpdates is called exactly once afterwards, regardless of insert or
commit failures, so consumers are woken to observe whatever prefix
committed. -/
theorem claim_C7_notify_unconditional (o : DbOracle) (out : PollOutcome)
    (off : Nat) (st : StoreState)
    (h : (pollStep o out off st).txOpened = true) :
    (pollStep o out off st).store.notifies = st.notifies + 1 := by
  cases out with
  | transportFailure => simp [pollStep] at h
  | httpResponse status bodyRead =>
    by_cases h2 : 200 ≤ status ∧ status < 300
    · cases bodyRead with
      | none => simp [pollStep, h2] at h
      | some b =>
        by_cases hok : b.okFlag = true
        · cases hb : beginTx o with
          | error e => simp [pollStep, h2, hok, hb] at h
          | ok tx =>
            rcases hp : processUpdates o off tx b.result with ⟨off1, tx1, flag⟩
            cases flag with
            | false =>
              cases hc : tx1.commit o st with
              | error e =>
                simp [pollStep, h2, hok, hb, hp, hc, StoreState.notify]
              | ok s1 =>
                have hs1 := commit_ok_eq hc
                subst hs1
                simp [pollStep, h2, hok, hb, hp, hc, StoreState.notify]
            | true =>
              cases hc : tx1.commit o st with
              | error e =>
                simp [pollStep, h2, hok, hb, hp, hc, StoreState.notify]
              | ok s1 =>
                have hs1 := commit_ok_eq hc
                subst hs1
                simp [pollStep, h2, hok, hb, hp, hc, StoreState.notify]
        · simp [pollStep, h2, hok] at h
    · by_cases h4 : 400 ≤ status ∧ status < 500
      · simp [pollStep, h2, h4] at h
      · simp [pollStep, h2, h4] at h

/-- C7 witness: with an oracle failing every InsertUpdate, the transaction is
opened, the batch fails mid-iteration, and NotifyUpdates is still called. -/
theorem claim_C7_witness :
    (pollStep oracleInsertUpdateFail (.httpResponse 200 (some ingestBodyFixture))
      0 storeEmpty).store.notifies = storeEmpty.notifies + 1 := by
  exact claim_C7_notify_unconditional oracleInsertUpdateFail
    (.httpResponse 200 (some ingestBodyFixture)) 0 storeEmpty (by decide)

theorem pollStep_fatal_iff (o : DbOracle) (out : PollOutcome) (off : Nat)
    (st : StoreState) :
    (pollStep o out off st).action = .fatal ↔ outcome4xx out := by
  cases out with
  | transportFailure => simp [pollStep, outcome4xx]
  | httpResponse status bodyRead =>
    by_cases h2 : 200 ≤ status ∧ status < 300
    · have h4 : ¬(400 ≤ status ∧ status < 500) := by omega
      cases bodyRead with
      | none => simp [pollStep, h2, outcome4xx, h4]
      | some b =>
        by_cases hok : b.okFlag = true
        · cases hb : beginTx o with
          | error e => simp [pollStep, h2, hok, hb, outcome4xx, h4]
          | ok tx =>
            rcases hp : processUpdates o off tx b.result with ⟨off1, tx1, flag⟩
            cases flag with
            | false =>
              cases hc : tx1.commit o st with
              | error e => simp [pollStep, h2, hok, hb, hp, hc, outcome4xx, h4]
              | ok s1 => simp [pollStep, h2, hok, hb, hp, hc, outcome4xx, h4]
            | true => simp [pollStep, h2, hok, hb, hp, outcome4xx, h4]
        · simp [pollStep, h2, hok, outcome4xx, h4]
    · by_cases h4 : 400 ≤ status ∧ status < 500
      · simp [pollStep, h2, h4, outcome4xx]
      · simp [pollStep, h2, h4, outcome4xx]

theorem pollStep_storageFailed_retry (o : DbOracle) (out : PollOutcome)
    (off : Nat) (st : StoreState)
    (h : (pollStep o out off st).storageFailed = true) :
    (pollStep o out off st).action = .retry
    ∧ storeFailLog ∈ (pollStep o out off st).logs := by
  cases out with
  | transportFailure => simp [pollStep] at h
  | httpResponse status bodyRead =>
    by_cases h2 : 200 ≤ status ∧ status < 300
    · cases bodyRead with
      | none => simp [pollStep, h2] at h
      | some b =>
        by_cases hok : b.okFlag = true
        · cases hb : beginTx o with
          | error e => simp [pollStep, h2, hok, hb]
          | ok tx =>
            rcases hp : processUpdates o off tx b.result with ⟨off1, tx1, flag⟩
            cases flag with
            | false =>
              cases hc : tx1.commit o st with
              | error e => simp [pollStep, h2, hok, hb, hp, hc]
              | ok s1 => simp [pollStep, h2, hok, hb, hp, hc] at h
            | true => simp [pollStep, h2, hok, hb, hp]
        · simp [pollStep, h2, hok] at h
    · by_cases h4 : 400 ≤ status ∧ status < 500
      · simp [pollStep, h2, h4] at h
      · simp [pollStep, h2, h4] at h

theorem processEchoMessage_commitFail (o : DbOracle) (now : Nat)
    (body : EchoBody) (cst : ClientState) (hc : o.commitFails = true)
    (hok : body.okFlag = true) :
    (processEchoMessage o now body cst).store.updates = cst.store.updates
    ∧ (processEchoMessage o now body cst).store.cache = cst.store.cache
    ∧ storeFailLog ∈ (processEchoMessage o now body cst).logs := by
  unfold processEchoMessage
  cases hb : beginTx o with
  | error e =>
    simp [hok, hb, commit_fails hc, txStepLogged, StoreState.notify]
  | ok tx =>
    cases hm : tx.insertMessage o body.result.msg.raw with
    | error e =>
      cases hl : tx.insertLocalUpdate o "message" body.result.msg.raw with
      | error e2 =>
        simp [hok, hb, hm, hl, commit_fails hc, txStepLogged, StoreState.notify]
      | ok tx2 =>
        simp [hok, hb, hm, hl, commit_fails hc, txStepLogged, StoreState.notify]
    | ok tx1 =>
      cases hl : tx1.insertLocalUpdate o "message" body.result.msg.raw with
      | error e2 =>
        simp [hok, hb, hm, hl, commit_fails hc, txStepLogged, StoreState.notify]
      | ok tx2 =>
        simp [hok, hb, hm, hl, commit_fails hc, txStepLogged, StoreState.notify]

theorem processEchoMessageEdit_commitFail (o : DbOracle) (body : EchoBody)
    (cst : ClientState) (hc : o.commitFails = true) (hok : body.okFlag = true)
    (ht : body.result.isTrue = false) :
    (processEchoMessageEdit o body cst).store.updates = cst.store.updates
    ∧ (processEchoMessageEdit o body cst).store.cache = cst.store.cache
    ∧ storeFailLog ∈ (processEchoMessageEdit o body cst).logs := by
  unfold processEchoMessageEdit
  cases hb : beginTx o with
  | error e =>
    simp [hok, ht, hb, commit_fails hc, txStepLogged, StoreState.notify]
  | ok tx =>
    cases hm : tx.insertMessage o body.result.msg.raw with
    | error e =>
      cases hl : tx.insertLocalUpdate o "edited_message" body.result.msg.raw with
      | error e2 =>
        simp [hok, ht, hb, hm, hl, commit_fails hc, txStepLogged, StoreState.notify]
      | ok tx2 =>
        simp [hok, ht, hb, hm, hl, commit_fails hc, txStepLogged, StoreState.notify]
    | ok tx1 =>
      cases hl : tx1.insertLocalUpdate o "edited_message" body.result.msg.raw with
      | error e2 =>
        simp [hok, ht, hb, hm, hl, commit_fails hc, txStepLogged, StoreState.notify]
      | ok tx2 =>
        simp [hok, ht, hb, hm, hl, commit_fails hc, txStepLogged, StoreState.notify]

theorem processEchoMessageArray_commitFail (o : DbOracle) (now : Nat)
    (body : EchoBody) (cst : ClientState) (hc : o.commitFails = true)
    (hok : body.okFlag = true) :
    (processEchoMessageArray o now body cst).store.updates = cst.store.updates
    ∧ (processEchoMessageArray o now body cst).store.cache = cst.store.cache
    ∧ storeFailLog ∈ (processEchoMessageArray o now body cst).logs := by
  unfold processEchoMessageArray
  cases hb : beginTx o with
  | error e =>
    rcases hf : body.result.elems.foldl (echoArrayStep o now)
        (cst.rate, invalidTx, [storeFailLog]) with ⟨rate1, tx2, l2⟩
    simp [hok, hb, hf, commit_fails hc, StoreState.notify]
  | ok tx =>
    rcases hf : body.result.elems.foldl (echoArrayStep o now)
        (cst.rate, tx, ([] : List String)) with ⟨rate1, tx2, l2⟩
    simp [hok, hb, hf, commit_fails hc, StoreState.notify]

theorem echoArrayStep_fold_invalid (o : DbOracle) (now : Nat) :
    ∀ (elems : List MsgVal) (acc : RateState × Tx × List String),
      acc.2.1 = invalidTx →
      (elems.foldl (echoArrayStep o now) acc).2.1 = invalidTx := by
  intro elems
  induction elems with
  | nil =>
    intro acc h
    simpa using h
  | cons m rest ih =>
    intro acc h
    rw [List.foldl_cons]
    apply ih
    rcases acc with ⟨rate, tx, logs⟩
    simp only at h
    subst h
    simp [echoArrayStep, Tx.insertMessage, Tx.insertLocalUpdate, invalidTx,
      txStepLogged]

theorem processEchoMessage_beginFail (o : DbOracle) (now : Nat)
    (body : EchoBody) (cst : ClientState) (hb : o.beginTxFails = true)
    (hok : body.okFlag = true) :
    (processEchoMessage o now body cst).store.updates = cst.store.updates
    ∧ (processEchoMessage o now body cst).store.cache = cst.store.cache
    ∧ storeFailLog ∈ (processEchoMessage o now body cst).logs := by
  unfold processEchoMessage
  simp [hok, beginTx, hb, txStepLogged, Tx.insertMessage, Tx.insertLocalUpdate,
    Tx.commit, invalidTx, StoreState.notify]

theorem processEchoMessageEdit_beginFail (o : DbOracle) (body : EchoBody)
    (cst : ClientState) (hb : o.beginTxFails = true) (hok : body.okFlag = true)
    (ht : body.result.isTrue = false) :
    (processEchoMessageEdit o body cst).store.updates = cst.store.updates
    ∧ (processEchoMessageEdit o body cst).store.cache = cst.store.cache
    ∧ storeFailLog ∈ (processEchoMessageEdit o body cst).logs := by
  unfold processEchoMessageEdit
  simp [hok, ht, beginTx, hb, txStepLogged, Tx.insertMessage,
    Tx.insertLocalUpdate, Tx.commit, invalidTx, StoreState.notify]

theorem processEchoMessageArray_beginFail (o : DbOracle) (now : Nat)
    (body : EchoBody) (cst : ClientState) (hb : o.beginTxFails = true)
    (hok : body.okFlag = true) :
    (processEchoMessageArray o now body cst).store.updates = cst.store.updates
    ∧ (processEchoMessageArray o now body cst).store.cache = cst.store.cache
    ∧ storeFailLog ∈ (processEchoMessageArray o now body cst).logs := by
  unfold processEchoMessageArray
  have hbe : beginTx o = .error () := by simp [beginTx, hb]
  rcases hf : body.result.elems.foldl (echoArrayStep o now)
      (cst.rate, invalidTx, [storeFailLog]) with ⟨rate1, tx2, l2⟩
  have htx : tx2 = invalidTx := by
    have hinv := echoArrayStep_fold_invalid o now body.result.elems
      (cst.rate, invalidTx, [storeFailLog]) rfl
    rw [hf] at hinv
    exact hinv
  subst htx
  have hce : invalidTx.commit o cst.store = .error () := by
    simp [Tx.commit, invalidTx]
  simp [hok, hbe, hf, hce, StoreState.notify]

theorem processEchoMessage_insertMessageFail (o : DbOracle) (now : Nat)
    (body : EchoBody) (cst : ClientState) (hb : o.beginTxFails = false)
    (hcm : o.commitFails = false)
    (him : o.insertMessageFails body.result.msg.raw = true)
    (hil : ∀ k r, o.insertLocalUpdateFails k r = false)
    (hok : body.okFlag = true) :
    (processEchoMessage o now body cst).store.updates
      = cst.store.updates ++ [.localEcho "message" body.result.msg.raw]
    ∧ (processEchoMessage o now body cst).store.cache = cst.store.cache
    ∧ storeFailLog ∈ (processEchoMessage o now body cst).logs := by
  unfold processEchoMessage
  simp [hok, beginTx, hb, txStepLogged, Tx.insertMessage, him,
    Tx.insertLocalUpdate, hil, Tx.commit, hcm, StoreState.notify]

theorem processEchoMessage_insertLocalFail (o : DbOracle) (now : Nat)
    (body : EchoBody) (cst : ClientState) (hb : o.beginTxFails = false)
    (hcm : o.commitFails = false)
    (him : ∀ r, o.insertMessageFails r = false)
    (hil : o.insertLocalUpdateFails "message" body.result.msg.raw = true)
    (hok : body.okFlag = true) :
    (processEchoMessage o now body cst).store.updates = cst.store.updates
    ∧ (processEchoMessage o now body cst).store.cache
        = cst.store.cache ++ [body.result.msg.raw]
    ∧ storeFailLog ∈ (processEchoMessage o now body cst).logs := by
  unfold processEchoMessage
  simp [hok, beginTx, hb, txStepLogged, Tx.insertMessage, him,
    Tx.insertLocalUpdate, hil, Tx.commit, hcm, StoreState.notify]

theorem processEchoMessageEdit_insertMessageFail (o : DbOracle)
    (body : EchoBody) (cst : ClientState) (hb : o.beginTxFails = false)
    (hcm : o.commitFails = false)
    (him : o.insertMessageFails body.result.msg.raw = true)
    (hil : ∀ k r, o.insertLocalUpdateFails k r = false)
    (hok : body.okFlag = true) (ht : body.result.isTrue = false) :
    (processEchoMessageEdit o body cst).store.updates
      = cst.store.updates ++ [.localEcho "edited_message" body.result.msg.raw]
    ∧ (processEchoMessageEdit o body cst).store.cache = cst.store.cache
    ∧ storeFailLog ∈ (processEchoMessageEdit o body cst).logs := by
  unfold processEchoMessageEdit
  simp [hok, ht, beginTx, hb, txStepLogged, Tx.insertMessage, him,
    Tx.insertLocalUpdate, hil, Tx.commit, hcm, StoreState.notify]

theorem processEchoMessageEdit_insertLocalFail (o : DbOracle)
    (body : EchoBody) (cst : ClientState) (hb : o.beginTxFails = false)
    (hcm : o.commitFails = false)
    (him : ∀ r, o.insertMessageFails r = false)
    (hil : o.insertLocalUpdateFails "edited_message" body.result.msg.raw = true)
    (hok : body.okFlag = true) (ht : body.result.isTrue = false) :
    (processEchoMessageEdit o body cst).store.updates = cst.store.updates
    ∧ (processEchoMessageEdit o body cst).store.cache
        = cst.store.cache ++ [body.result.msg.raw]
    ∧ storeFailLog ∈ (processEchoMessageEdit o body cst).logs := by
  unfold processEchoMessageEdit
  simp [hok, ht, beginTx, hb, txStepLogged, Tx.insertMessage, him,
    Tx.insertLocalUpdate, hil, Tx.commit, hcm, StoreState.notify]

theorem processEchoMessageArray_insertMessageFail (o : DbOracle) (now : Nat)
    (body : EchoBody) (cst : ClientState) (m : MsgVal)
    (he : body.result.elems = [m]) (hb : o.beginTxFails = false)
    (hcm : o.commitFails = false) (him : o.insertMessageFails m.raw = true)
    (hil : ∀ k r, o.insertLocalUpdateFails k r = false)
    (hok : body.okFlag = true) :
    (processEchoMessageArray o now body cst).store.updates
      = cst.store.updates ++ [.localEcho "message" m.raw]
    ∧ (processEchoMessageArray o now body cst).store.cache = cst.store.cache
    ∧ storeFailLog ∈ (processEchoMessageArray o now body cst).logs := by
  unfold processEchoMessageArray
  simp [hok, he, beginTx, hb, echoArrayStep, txStepLogged, Tx.insertMessage,
    him, Tx.insertLocalUpdate, hil, Tx.commit, hcm, StoreState.notify]

/-- C2 counterexample: an oracle under which only InsertMessage fails (the
transaction opens, the update insert and the commit succeed) makes the
single-message echo handler log the storage failure but still commit the
synthetic local "message" update: the injection is NOT dropped, refuting the
claim's assertion that on every storage failure the EchoSynthesiser drops the
injection. -/
theorem claim_C2_counterexample :
    (processEchoMessage oracleInsertMessageFail 0 echoBodyFixture
        clientEmpty).store.updates = [.localEcho "message" "rawmsg"]
    ∧ clientEmpty.store.updates = []
    ∧ storeFailLog ∈ (processEchoMessage oracleInsertMessageFail 0
        echoBodyFixture clientEmpty).logs := by
  decide

/-- C2 amended: every storage failure is logged and execution proceeds without
terminating: a StartPolling iteration is fatal exactly on a 4xx status (so no
storage failure is fatal) and any ingest storage failure yields a logged
backoff-and-retry; an echo handler drops the injection when the transaction
fails to open or to commit, logging the failure; a failed insert inside an
echo transaction is only logged and the remaining staged operations still
commit — a failed message-cache upsert with a successful update insert still
injects the synthetic update, and a failed update insert with a successful
upsert still writes the cache entry. -/
theorem claim_C2_storage_failures_amended :
    (∀ (o : DbOracle) (out : PollOutcome) (off : Nat) (st : StoreState),
      ((pollStep o out off st).action = .fatal ↔ outcome4xx out))
    ∧ (∀ (o : DbOracle) (out : PollOutcome) (off : Nat) (st : StoreState),
        (pollStep o out off st).storageFailed = true →
          (pollStep o out off st).action = .retry
          ∧ storeFailLog ∈ (pollStep o out off st).logs)
    ∧ (∀ (o : DbOracle) (now : Nat) (body : EchoBody) (cst : ClientState),
        o.beginTxFails = true → body.okFlag = true →
          (processEchoMessage o now body cst).store.updates = cst.store.updates
          ∧ (processEchoMessage o now body cst).store.cache = cst.store.cache
          ∧ storeFailLog ∈ (processEchoMessage o now body cst).logs)
    ∧ (∀ (o : DbOracle) (body : EchoBody) (cst : ClientState),
        o.beginTxFails = true → body.okFlag = true →
        body.result.isTrue = false →
          (processEchoMessageEdit o body cst).store.updates = cst.store.updates
          ∧ (processEchoMessageEdit o body cst).store.cache = cst.store.cache
          ∧ storeFailLog ∈ (processEchoMessageEdit o body cst).logs)
    ∧ (∀ (o : DbOracle) (now : Nat) (body : EchoBody) (cst : ClientState),
        o.beginTxFails = true → body.okFlag = true →
          (processEchoMessageArray o now body cst).store.updates
            = cst.store.updates
          ∧ (processEchoMessageArray o now body cst).store.cache
            = cst.store.cache
          ∧ storeFailLog ∈ (processEchoMessageArray o now body cst).logs)
    ∧ (∀ (o : DbOracle) (now : Nat) (body : EchoBody) (cst : ClientState),
        o.commitFails = true → body.okFlag = true →
          (processEchoMessage o now body cst).store.updates = cst.store.updates
          ∧ (processEchoMessage o now body cst).store.cache = cst.store.cache
          ∧ storeFailLog ∈ (processEchoMessage o now body cst).logs)
    ∧ (∀ (o : DbOracle) (body : EchoBody) (cst : ClientState),
        o.commitFails = true → body.okFlag = true →
        body.result.isTrue = false →
          (processEchoMessageEdit o body cst).store.updates = cst.store.updates
          ∧ (processEchoMessageEdit o body cst).store.cache = cst.store.cache
          ∧ storeFailLog ∈ (processEchoMessageEdit o body cst).logs)
    ∧ (∀ (o : DbOracle) (now : Nat) (body : EchoBody) (cst : ClientState),
        o.commitFails = true → body.okFlag = true →
          (processEchoMessageArray o now body cst).store.updates
            = cst.store.updates
          ∧ (processEchoMessageArray o now body cst).store.cache
            = cst.store.cache
          ∧ storeFailLog ∈ (processEchoMessageArray o now body cst).logs)
    ∧ (∀ (o : DbOracle) (now : Nat) (body : EchoBody) (cst : ClientState),
        o.beginTxFails = false → o.commitFails = false →
        o.insertMessageFails body.result.msg.raw = true →
        (∀ k r, o.insertLocalUpdateFails k r = false) → body.okFlag = true →
          (processEchoMessage o now body cst).store.updates
            = cst.store.updates ++ [.localEcho "message" body.result.msg.raw]
          ∧ (processEchoMessage o now body cst).store.cache = cst.store.cache
          ∧ storeFailLog ∈ (processEchoMessage o now body cst).logs)
    ∧ (∀ (o : DbOracle) (now : Nat) (body : EchoBody) (cst : ClientState),
        o.beginTxFails = false → o.commitFails = false →
        (∀ r, o.insertMessageFails r = false) →
        o.insertLocalUpdateFails "message" body.result.msg.raw = true →
        body.okFlag = true →
          (processEchoMessage o now body cst).store.updates = cst.store.updates
          ∧ (processEchoMessage o now body cst).store.cache
            = cst.store.cache ++ [body.result.msg.raw]
          ∧ storeFailLog ∈ (processEchoMessage o now body cst).logs)
    ∧ (∀ (o : DbOracle) (body : EchoBody) (cst : ClientState),
        o.beginTxFails = false → o.commitFails = false →
        o.insertMessageFails body.result.msg.raw = true →
        (∀ k r, o.insertLocalUpdateFails k r = false) → body.okFlag = true →
        body.result.isTrue = false →
          (processEchoMessageEdit o body cst).store.updates
            = cst.store.updates
              ++ [.localEcho "edited_message" body.result.msg.raw]
          ∧ (processEchoMessageEdit o body cst).store.cache = cst.store.cache
          ∧ storeFailLog ∈ (processEchoMessageEdit o body cst).logs)
    ∧ (∀ (o : DbOracle) (body : EchoBody) (cst : ClientState),
        o.beginTxFails = false → o.commitFails = false →
        (∀ r, o.insertMessageFails r = false) →
        o.insertLocalUpdateFails "edited_message" body.result.msg.raw = true →
        body.okFlag = true → body.result.isTrue = false →
          (processEchoMessageEdit o body cst).store.updates = cst.store.updates
          ∧ (processEchoMessageEdit o body cst).store.cache
            = cst.store.cache ++ [body.result.msg.raw]
          ∧ storeFailLog ∈ (processEchoMessageEdit o body cst).logs)
    ∧ (∀ (o : DbOracle) (now : Nat) (body : EchoBody) (cst : ClientState)
        (m : MsgVal),
        body.result.elems = [m] → o.beginTxFails = false →
        o.commitFails = false → o.insertMessageFails m.raw = true →
        (∀ k r, o.insertLocalUpdateFails k r = false) → body.okFlag = true →
          (processEchoMessageArray o now body cst).store.updates
            = cst.store.updates ++ [.localEcho "message" m.raw]
          ∧ (processEchoMessageArray o now body cst).store.cache
            = cst.store.cache
          ∧ storeFailLog ∈ (processEchoMessageArray o now body cst).logs) := by
  refine ⟨pollStep_fatal_iff, pollStep_storageFailed_retry, ?_, ?_, ?_, ?_,
    ?_, ?_, ?_, ?_, ?_, ?_, ?_⟩
  · intro o now body cst hb hok
    exact processEchoMessage_beginFail o now body cst hb hok
  · intro o body cst hb hok ht
    exact processEchoMessageEdit_beginFail o body cst hb hok ht
  · intro o now body cst hb hok
    exact processEchoMessageArray_beginFail o now body cst hb hok
  · intro o now body cst hc hok
    exact processEchoMessage_commitFail o now body cst hc hok
  · intro o body cst hc hok ht
    exact processEchoMessageEdit_commitFail o body cst hc hok ht
  · intro o now body cst hc hok
    exact processEchoMessageArray_commitFail o now body cst hc hok
  · intro o now body cst hb hcm him hil hok
    exact processEchoMessage_insertMessageFail o now body cst hb hcm him hil hok
  · intro o now body cst hb hcm him hil hok
    exact processEchoMessage_insertLocalFail o now body cst hb hcm him hil hok
  · intro o body cst hb hcm him hil hok ht
    exact processEchoMessageEdit_insertMessageFail o body cst hb hcm him hil
      hok ht
  · intro o body cst hb hcm him hil hok ht
    exact processEchoMessageEdit_insertLocalFail o body cst hb hcm him hil
      hok ht
  · intro o now body cst m he hb hcm him hil hok
    exact processEchoMessageArray_insertMessageFail o now body cst m he hb hcm
      him hil hok

/-- C2 witness: concrete instances of the amended claim: a failed commit makes
the ingest iteration retry with the failure logged; a failed BeginTx makes the
single-message echo handler drop everything and log; and an
InsertMessage-only failure still injects the update while logging. -/
theorem claim_C2_witness :
    ((pollStep oracleCommitFail (.httpResponse 200 (some ingestBodyFixture)) 0
        storeEmpty).action = .retry
      ∧ storeFailLog ∈ (pollStep oracleCommitFail
          (.httpResponse 200 (some ingestBodyFixture)) 0 storeEmpty).logs)
    ∧ ((processEchoMessage oracleBeginFail 0 echoBodyFixture
          clientEmpty).store.updates = clientEmpty.store.updates
      ∧ (processEchoMessage oracleBeginFail 0 echoBodyFixture
          clientEmpty).store.cache = clientEmpty.store.cache
      ∧ storeFailLog ∈ (processEchoMessage oracleBeginFail 0 echoBodyFixture
          clientEmpty).logs)
    ∧ ((processEchoMessage oracleInsertMessageFail 0 echoBodyFixture
          clientEmpty).store.updates
        = clientEmpty.store.updates
          ++ [.localEcho "message" echoBodyFixture.result.msg.raw]
      ∧ (processEchoMessage oracleInsertMessageFail 0 echoBodyFixture
          clientEmpty).store.cache = clientEmpty.store.cache
      ∧ storeFailLog ∈ (processEchoMessage oracleInsertMessageFail 0
          echoBodyFixture clientEmpty).logs) := by
  refine ⟨?_, ?_, ?_⟩
  · exact claim_C2_storage_failures_amended.2.1 oracleCommitFail
      (.httpResponse 200 (some ingestBodyFixture)) 0 storeEmpty (by decide)
  · exact claim_C2_storage_failures_amended.2.2.1 oracleBeginFail 0
      echoBodyFixture clientEmpty rfl (by decide)
  · exact claim_C2_storage_failures_amended.2.2.2.2.2.2.2.2.1
      oracleInsertMessageFail 0 echoBodyFixture clientEmpty rfl rfl rfl
      (fun _ _ => rfl) (by decide)

theorem pollStep_storeAttempted_iff (o : DbOracle) (out : PollOutcome)
    (off : Nat) (st : StoreState) :
    (pollStep o out off st).storeAttempted = true ↔
      ∃ status b, out = .httpResponse status (some b)
        ∧ 200 ≤ status ∧ status < 300 ∧ b.okFlag = true := by
  cases out with
  | transportFailure => simp [pollStep]
  | httpResponse status bodyRead =>
    by_cases h2 : 200 ≤ status ∧ status < 300
    · cases bodyRead with
      | none => simp [pollStep, h2]
      | some b =>
        by_cases hok : b.okFlag = true
        · cases hb : beginTx o with
          | error e =>
            simp only [pollStep, h2, hok, hb, if_pos, Bool.not_true]
            simp [h2]
            exact ⟨status, b, ⟨rfl, rfl⟩, h2.1, h2.2, hok⟩
          | ok tx =>
            rcases hp : processUpdates o off tx b.result with ⟨off1, tx1, flag⟩
            cases flag with
            | false =>
              cases hc : tx1.commit o st with
              | error e =>
                simp [pollStep, h2, hok, hb, hp, hc]
                exact ⟨status, b, ⟨rfl, rfl⟩, h2.1, h2.2, hok⟩
              | ok s1 =>
                simp [pollStep, h2, hok, hb, hp, hc]
                exact ⟨status, b, ⟨rfl, rfl⟩, h2.1, h2.2, hok⟩
            | true =>
              simp [pollStep, h2, hok, hb, hp]
              exact ⟨status, b, ⟨rfl, rfl⟩, h2.1, h2.2, hok⟩
        · simp [pollStep, h2, hok]
    · by_cases h4 : 400 ≤ status ∧ status < 500
      · simp [pollStep, h2, h4]
        intro b1 hb1
        omega
      · simp [pollStep, h2, h4]
        intro b1 hb1
        omega

theorem pollStep_success_attempted (o : DbOracle) (out : PollOutcome)
    (off : Nat) (st : StoreState)
    (h : (pollStep o out off st).action = .success) :
    (pollStep o out off st).storeAttempted = true := by
  cases out with
  | transportFailure => simp [pollStep] at h
  | httpResponse status bodyRead =>
    by_cases h2 : 200 ≤ status ∧ status < 300
    · cases bodyRead with
      | none => simp [pollStep, h2] at h
      | some b =>
        by_cases hok : b.okFlag = true
        · cases hb : beginTx o with
          | error e => simp [pollStep, h2, hok, hb] at h
          | ok tx =>
            rcases hp : processUpdates o off tx b.result with ⟨off1, tx1, flag⟩
            cases flag with
            | false =>
              cases hc : tx1.commit o st with
              | error e => simp [pollStep, h2, hok, hb, hp, hc] at h
              | ok s1 => simp [pollStep, h2, hok, hb, hp, hc]
            | true => simp [pollStep, h2, hok, hb, hp]
        · simp [pollStep, h2, hok] at h
    · by_cases h4 : 400 ≤ status ∧ status < 500
      · simp [pollStep, h2, h4] at h
      · simp [pollStep, h2, h4] at h

/-- C4: classification of getUpdates outcomes: transport failure, 5xx, and
body-read failure are logged and retried; 4xx is fatal; a 2xx whose body has
ok not equal to true is logged and retried; and the storage phase is reached
(and the backoff can be reset) exactly on a 2xx with ok true. -/
theorem claim_C4_classification :
    (∀ (o : DbOracle) (off : Nat) (st : StoreState),
      (pollStep o .transportFailure off st).action = .retry
      ∧ "Upstream HTTP request error" ∈ (pollStep o .transportFailure off st).logs)
    ∧ (∀ (o : DbOracle) (off : Nat) (st : StoreState) (status : Nat)
        (b : Option GetUpdatesBody), 500 ≤ status → status < 600 →
        (pollStep o (.httpResponse status b) off st).action = .retry
        ∧ "Upstream server returned error"
            ∈ (pollStep o (.httpResponse status b) off st).logs)
    ∧ (∀ (o : DbOracle) (off : Nat) (st : StoreState) (status : Nat),
        200 ≤ status → status < 300 →
        (pollStep o (.httpResponse status none) off st).action = .retry
        ∧ "HTTP read error" ∈ (pollStep o (.httpResponse status none) off st).logs)
    ∧ (∀ (o : DbOracle) (off : Nat) (st : StoreState) (status : Nat)
        (b : Option GetUpdatesBody), 400 ≤ status → status < 500 →
        (pollStep o (.httpResponse status b) off st).action = .fatal)
    ∧ (∀ (o : DbOracle) (off : Nat) (st : StoreState) (status : Nat)
        (b : GetUpdatesBody), 200 ≤ status → status < 300 → b.okFlag = false →
        (pollStep o (.httpResponse status (some b)) off st).action = .retry
        ∧ upstreamErrLog ∈ (pollStep o (.httpResponse status (some b)) off st).logs)
    ∧ (∀ (o : DbOracle) (out : PollOutcome) (off : Nat) (st : StoreState),
        (pollStep o out off st).storeAttempted = true ↔
          ∃ status b, out = .httpResponse status (some b)
            ∧ 200 ≤ status ∧ status < 300 ∧ b.okFlag = true)
    ∧ (∀ (o : DbOracle) (out : PollOutcome) (off : Nat) (st : StoreState),
        (pollStep o out off st).action = .success →
          (pollStep o out off st).storeAttempted = true) := by
  refine ⟨?_, ?_, ?_, ?_, ?_, pollStep_storeAttempted_iff,
    pollStep_success_attempted⟩
  · intro o off st
    simp [pollStep]
  · intro o off st status b h5 h6
    have h2 : ¬(200 ≤ status ∧ status < 300) := by omega
    have h4 : ¬(400 ≤ status ∧ status < 500) := by omega
    simp [pollStep, h2, h4]
  · intro o off st status ha hb
    have h2 : 200 ≤ status ∧ status < 300 := ⟨ha, hb⟩
    simp [pollStep, h2]
  · intro o off st status b ha hb
    have h2 : ¬(200 ≤ status ∧ status < 300) := by omega
    have h4 : 400 ≤ status ∧ status < 500 := ⟨ha, hb⟩
    simp [pollStep, h2, h4]
  · intro o off st status b ha hb hok
    have h2 : 200 ≤ status ∧ status < 300 := ⟨ha, hb⟩
    simp [pollStep, h2, hok]

/-- C4 witness: a 502 retries with a log, a 401 is fatal, and a 2xx ok body
reaches the storage phase. -/
theorem claim_C4_witness :
    ((pollStep oracleNoFail (.httpResponse 502 none) 3 storeEmpty).action = .retry
      ∧ "Upstream server returned error"
          ∈ (pollStep oracleNoFail (.httpResponse 502 none) 3 storeEmpty).logs)
    ∧ (pollStep oracleNoFail (.httpResponse 401 none) 3 storeEmpty).action = .fatal
    ∧ (pollStep oracleNoFail (.httpResponse 200 (some ingestBodyFixture)) 0
        storeEmpty).storeAttempted = true := by
  refine ⟨?_, ?_, ?_⟩
  · exact claim_C4_classification.2.1 oracleNoFail 3 storeEmpty 502 none
      (by decide) (by decide)
  · exact claim_C4_classification.2.2.2.1 oracleNoFail 3 storeEmpty 401 none
      (by decide) (by decide)
  · exact (claim_C4_classification.2.2.2.2.2.1 oracleNoFail
      (.httpResponse 200 (some ingestBodyFixture)) 0 storeEmpty).mpr
      ⟨200, ingestBodyFixture, rfl, by decide, by decide, by decide⟩

theorem processEchoMessageEdit_rate (o : DbOracle) (body : EchoBody)
    (cst : ClientState) : (processEchoMessageEdit o body cst).rate = cst.rate := by
  unfold processEchoMessageEdit
  by_cases hok : body.okFlag = true
  · by_cases ht : body.result.isTrue = true
    · simp [hok, ht]
    · simp only [hok, Bool.not_true, Bool.false_eq_true, if_false, ht, if_neg]
  · simp [hok]

/-- C6: the edit echo handler: on an ok body whose result is the JSON literal
true it changes nothing at all; on an ok body carrying a message (with all
storage operations succeeding) a single transaction appends exactly one
message-cache upsert and one local edited_message update and NotifyUpdates is
called once; and the rate-limit cooldowns are never modified by an edit
echo. -/
theorem claim_C6_edit_echo :
    (∀ (o : DbOracle) (body : EchoBody) (cst : ClientState),
      (processEchoMessageEdit o body cst).rate = cst.rate)
    ∧ (∀ (o : DbOracle) (body : EchoBody) (cst : ClientState),
        body.okFlag = true → body.result.isTrue = true →
          processEchoMessageEdit o body cst = cst)
    ∧ (∀ (o : DbOracle) (body : EchoBody) (cst : ClientState),
        o.allOk → body.okFlag = true → body.result.isTrue = false →
          (processEchoMessageEdit o body cst).store.updates
            = cst.store.updates ++ [.localEcho "edited_message" body.result.msg.raw]
          ∧ (processEchoMessageEdit o body cst).store.cache
            = cst.store.cache ++ [body.result.msg.raw]
          ∧ (processEchoMessageEdit o body cst).store.notifies
            = cst.store.notifies + 1) := by
  refine ⟨processEchoMessageEdit_rate, ?_, ?_⟩
  · intro o body cst hok ht
    unfold processEchoMessageEdit
    simp [hok, ht]
  · intro o body cst hall hok ht
    rcases hall with ⟨hb, him, hiu, hil, hcm⟩
    unfold processEchoMessageEdit
    simp [hok, ht, beginTx, hb, txStepLogged, Tx.insertMessage, him,
      Tx.insertLocalUpdate, hil, Tx.commit, hcm, StoreState.notify]

/-- C6 witness: a concrete ok edit body with a message result appends one
edited_message update and one cache upsert and notifies once, while the
true-result body leaves the state untouched. -/
theorem claim_C6_witness :
    ((processEchoMessageEdit oracleNoFail echoBodyFixture clientEmpty).store.updates
      = clientEmpty.store.updates
        ++ [.localEcho "edited_message" echoBodyFixture.result.msg.raw]
      ∧ (processEchoMessageEdit oracleNoFail echoBodyFixture clientEmpty).store.cache
        = clientEmpty.store.cache ++ [echoBodyFixture.result.msg.raw]
      ∧ (processEchoMessageEdit oracleNoFail echoBodyFixture clientEmpty).store.notifies
        = clientEmpty.store.notifies + 1)
    ∧ processEchoMessageEdit oracleNoFail
        { echoBodyFixture with
          result := { echoBodyFixture.result with isTrue := true } }
        clientEmpty = clientEmpty := by
  refine ⟨?_, ?_⟩
  · exact claim_C6_edit_echo.2.2 oracleNoFail echoBodyFixture clientEmpty
      ⟨rfl, fun _ => rfl, fun _ _ _ => rfl, fun _ _ => rfl, rfl⟩ (by decide)
      (by decide)
  · exact claim_C6_edit_echo.2.1 oracleNoFail
      { echoBodyFixture with
        result := { echoBodyFixture.result with isTrue := true } }
      clientEmpty (by decide) (by decide)

theorem string_length_eq_zero (s : String) : s.length = 0 ↔ s = "" := by
  cases s with
  | mk data =>
    constructor
    · intro h
      have hd : data = [] := List.length_eq_zero.mp h
      subst hd
      rfl
    · intro h
      have hd : data = ([] : List Char) := congrArg String.data h
      subst hd
      rfl

theorem string_length_ne_zero {s : String} (h : s ≠ "") : ¬s.length = 0 :=
  fun hl => h ((string_length_eq_zero s).mp hl)

/-- C9 counterexample: a configuration with db empty and polling_timeout = 5
makes Load report only the db error; although polling_timeout is below 10,
no error containing "upstream.polling_timeout is too short" is returned,
falsifying the claim's "exactly when". -/
theorem claim_C9_counterexample :
    validateConfig badConfig = some (.fieldIsEmpty "db")
    ∧ badConfig.upstream.pollingTimeout < 10
    ∧ containsStr (ConfigError.message (.fieldIsEmpty "db"))
        "upstream.polling_timeout is too short" = false
    ∧ containsStr (ConfigError.message (.fieldIsEmpty "db")) "db is empty" = true := by
  refine ⟨by decide, by decide, by decide, by decide⟩

set_option maxHeartbeats 1000000 in
/-- C9 amended: Load applies the documented defaults, and its validation
checks run in source order with the first failing check determining the single
reported error: validation passes exactly when every required string field is
nonempty and both durations meet their bounds; a reported "X is empty" error
names a field that really is empty, and a reported "X is too short" error is
for upstream.polling_timeout below 10 or upstream.max_retry_interval
below 60. -/
theorem claim_C9_validation_amended (c : Config) :
    (defaultConfig.db = "tbmux.db"
      ∧ defaultConfig.upstream.apiUrl = "https://api.telegram.org/bot"
      ∧ defaultConfig.upstream.fileUrl = "https://api.telegram.org/file/bot"
      ∧ defaultConfig.upstream.pollingTimeout = 60
      ∧ defaultConfig.upstream.maxRetryInterval = 600
      ∧ defaultConfig.downstream.apiPath = "/bot"
      ∧ defaultConfig.downstream.filePath = "/file/bot")
    ∧ (validateConfig c = none ↔ goodConfig c)
    ∧ (∀ f, validateConfig c = some (.fieldIsEmpty f) →
        configStrField c f = some "")
    ∧ (∀ f, validateConfig c = some (.durationIsTooShort f) →
        (f = "upstream.polling_timeout" ∧ c.upstream.pollingTimeout < 10)
        ∨ (f = "upstream.max_retry_interval" ∧ c.upstream.maxRetryInterval < 60)) := by
  refine ⟨⟨rfl, rfl, rfl, rfl, rfl, rfl, rfl⟩, ?_, ?_, ?_⟩
  · constructor
    · intro h
      unfold validateConfig at h
      split_ifs at h with h1 h2 h3 h4 h5 h6 h7 h8 h9 h10
      exact ⟨fun he => h1 ((string_length_eq_zero _).mpr he),
        fun he => h2 ((string_length_eq_zero _).mpr he),
        fun he => h3 ((string_length_eq_zero _).mpr he),
        fun he => h4 ((string_length_eq_zero _).mpr he),
        Nat.not_lt.mp h5, Nat.not_lt.mp h6,
        fun he => h7 ((string_length_eq_zero _).mpr he),
        fun he => h8 ((string_length_eq_zero _).mpr he),
        fun he => h9 ((string_length_eq_zero _).mpr he),
        fun he => h10 ((string_length_eq_zero _).mpr he)⟩
    · intro hg
      obtain ⟨g1, g2, g3, g4, g5, g6, g7, g8, g9, g10⟩ := hg
      unfold validateConfig
      rw [if_neg (string_length_ne_zero g1), if_neg (string_length_ne_zero g2),
        if_neg (string_length_ne_zero g3), if_neg (string_length_ne_zero g4),
        if_neg (Nat.not_lt.mpr g5), if_neg (Nat.not_lt.mpr g6),
        if_neg (string_length_ne_zero g7), if_neg (string_length_ne_zero g8),
        if_neg (string_length_ne_zero g9), if_neg (string_length_ne_zero g10)]
  · intro f hf
    unfold validateConfig at hf
    split_ifs at hf with h1 h2 h3 h4 h5 h6 h7 h8 h9 h10 <;> simp at hf
    · subst hf
      simp [configStrField, (string_length_eq_zero _).mp h1]
    · subst hf
      simp [configStrField, (string_length_eq_zero _).mp h2]
    · subst hf
      simp [configStrField, (string_length_eq_zero _).mp h3]
    · subst hf
      simp [configStrField, (string_length_eq_zero _).mp h4]
    · subst hf
      simp [configStrField, (string_length_eq_zero _).mp h7]
    · subst hf
      simp [configStrField, (string_length_eq_zero _).mp h8]
    · subst hf
      simp [configStrField, (string_length_eq_zero _).mp h9]
    · subst hf
      simp [configStrField, (string_length_eq_zero _).mp h10]
  · intro f hf
    unfold validateConfig at hf
    split_ifs at hf with h1 h2 h3 h4 h5 h6 h7 h8 h9 h10 <;> simp at hf
    · subst hf
      exact Or.inl ⟨rfl, h5⟩
    · subst hf
      exact Or.inr ⟨rfl, h6⟩

/-- C9 witness: the defaults hold, a fully-filled configuration validates, and
the db error reported for badConfig names a truly empty field. -/
theorem claim_C9_witness :
    goodConfig okConfig ∧ configStrField badConfig "db" = some "" := by
  refine ⟨?_, ?_⟩
  · exact (claim_C9_validation_amended okConfig).2.1.mp (by decide)
  · exact (claim_C9_validation_amended badConfig).2.2.1 "db" (by decide)

/-- C10: the echo handler of an API-route request runs only when the method
has an echo handler, the upstream status is 2xx, and the copy of the whole
response body to the downstream writer succeeded; when the copy fails the
handler is skipped and the committed store — updates and cache — and the
cooldowns are untouched. -/
theorem claim_C10_echo_gated_on_copy :
    (∀ (o : DbOracle) (now : Nat) (method : String) (status : Nat)
        (body : EchoBody) (cst : ClientState),
      (forwardTail o now false method status false body cst).echoRan = false
      ∧ (forwardTail o now false method status false body cst).state.store
          = cst.store
      ∧ (forwardTail o now false method status false body cst).state.rate
          = cst.rate)
    ∧ (∀ (o : DbOracle) (now : Nat) (isFile : Bool) (method : String)
        (status : Nat) (copyOk : Bool) (body : EchoBody) (cst : ClientState),
        (forwardTail o now isFile method status copyOk body cst).echoRan = true →
          copyOk = true ∧ isFile = false
          ∧ (echoProcessorOf method).isSome = true
          ∧ 200 ≤ status ∧ status < 300) := by
  constructor
  · intro o now method status body cst
    unfold forwardTail
    cases hE : echoProcessorOf method with
    | none => simp [hE]
    | some k =>
      by_cases hs : status < 200 ∨ 300 ≤ status
      · simp [hE, hs]
      · simp [hE, hs]
  · intro o now isFile method status copyOk body cst h
    cases isFile with
    | true => simp [forwardTail] at h
    | false =>
      cases hE : echoProcessorOf method with
      | none => simp [forwardTail, hE] at h
      | some k =>
        by_cases hs : status < 200 ∨ 300 ≤ status
        · simp [forwardTail, hE, hs] at h
        · cases copyOk with
          | false => simp [forwardTail, hE, hs] at h
          | true =>
            refine ⟨rfl, rfl, by simp [hE], ?_, ?_⟩ <;> omega

/-- C10 witness: for a sendMessage response with status 200, the echo runs
only because the copy succeeded, and the conditions the theorem extracts are
exactly those of that run. -/
theorem claim_C10_witness :
    (true = true ∧ false = false
      ∧ (echoProcessorOf "sendMessage").isSome = true
      ∧ 200 ≤ 200 ∧ 200 < 300)
    ∧ (forwardTail oracleNoFail 0 false "sendMessage" 200 false echoBodyFixture
        clientEmpty).echoRan = false := by
  refine ⟨?_, ?_⟩
  · exact claim_C10_echo_gated_on_copy.2 oracleNoFail 0 false "sendMessage" 200
      true echoBodyFixture clientEmpty (by decide)
  · exact (claim_C10_echo_gated_on_copy.1 oracleNoFail 0 "sendMessage" 200
      echoBodyFixture clientEmpty).1

end BotMuxer
